import Mathlib

/-!
Verification of the heating-simulation engine of `turn-your-heater-off`
(`src/artifacts/index.tsx`, function `runSimulation`).

The engine is a single loop of `TOTAL_STEPS` iterations that advances two
heating strategies side by side from the same configuration:

* Mode 1 — constant heating at `desiredTemp` with a bang-bang hysteresis
  controller;
* Mode 2 — night setback: heating is forced off whenever the integer hour
  of day is `≥ 22` or `< 8`, otherwise the same controller runs.

Each iteration samples the sinusoidal outside temperature once, decides each
heater state, advances each indoor temperature by one classical RK4 step
(forcing held fixed within the step), accumulates energy
(`heaterOutput / STEPS_PER_HOUR` per ON step), and appends one data record
per mode.

JavaScript numbers are modelled as real numbers (`ℝ`).  `toFixed(2)` followed
by `parseFloat` is modelled as rounding to the nearest hundredth (`round2`).
The savings percentage, which the source computes by an unguarded division
`(mode1EnergyUsed - mode2EnergyUsed) / mode1EnergyUsed * 100`, is modelled as
an `Option ℝ` that is `none` exactly when the divisor is `0`: in IEEE-754
arithmetic that division yields `NaN` (or `±Infinity`), i.e. no defined
percentage, which real-number division cannot represent directly.
-/

/-- Configuration of one simulation run: the seven slider-controlled
parameters of `runSimulation` (`index.tsx`, lines 37-43). -/
structure Config where
  outsideTemp : ℝ
  desiredTemp : ℝ
  insulation : ℝ
  houseHeatCapacity : ℝ
  heaterOutput : ℝ
  diurnalVariation : ℝ
  thermostatHysteresis : ℝ

/-- Source constant `SECONDS_PER_STEP = 10` (line 59). -/
def SECONDS_PER_STEP : ℕ := 10

/-- Source constant `STEPS_PER_HOUR = 3600 / SECONDS_PER_STEP` (line 60). -/
def STEPS_PER_HOUR : ℕ := 3600 / SECONDS_PER_STEP

/-- Source constant `HOURS_SIMULATED = 24` (line 61). -/
def HOURS_SIMULATED : ℕ := 24

/-- Source constant `TOTAL_STEPS = HOURS_SIMULATED * STEPS_PER_HOUR` (line 62). -/
def TOTAL_STEPS : ℕ := HOURS_SIMULATED * STEPS_PER_HOUR

/-- The integration step in hours: `const dt = SECONDS_PER_STEP / 3600`
(line 169). -/
noncomputable def dt : ℝ := (SECONDS_PER_STEP : ℝ) / 3600

/-- Source line 107: `const heatLossCoefficient = 1000 / insulation`. -/
noncomputable def heatLossCoefficient (cfg : Config) : ℝ :=
  1000 / cfg.insulation

/-- Line 134: `outsideTemp + (diurnalVariation / 2) *
Math.sin((2 * Math.PI * (timeInHours - 9)) / 24)`. -/
noncomputable def effectiveOutsideTemp (cfg : Config) (timeInHours : ℝ) : ℝ :=
  cfg.outsideTemp +
    (cfg.diurnalVariation / 2) * Real.sin (2 * Real.pi * (timeInHours - 9) / 24)

/-- Model of `parseFloat(x.toFixed(2))` (lines 212, 213, 222, 223): rounding
to the nearest hundredth. -/
noncomputable def round2 (x : ℝ) : ℝ :=
  (round (100 * x) : ℤ) / 100

/-- One record pushed per step and mode (`SimulationData`, lines 18-25).
The `time` string is presentation-only formatting of `hour` and the minute
and is omitted from the model. -/
structure SimRec where
  hour : ℕ
  temperature : ℝ
  outsideTemp : ℝ
  heaterOn : Bool
  energyUsed : ℝ

/-- The loop-local mutable variables of `runSimulation` (lines 110-121),
for both modes, together with the accumulated data arrays. -/
structure SimState where
  mode1Temp : ℝ
  mode1HeaterOn : Bool
  mode1EnergyUsed : ℝ
  mode1HeaterOnCount : ℕ
  mode1Data : List SimRec
  mode2Temp : ℝ
  mode2HeaterOn : Bool
  mode2EnergyUsed : ℝ
  mode2HeaterOnCount : ℕ
  mode2Data : List SimRec

/-- Initial loop state (lines 110-121): both temperatures start at
`desiredTemp`, both heaters start off, energies and counts at zero. -/
def initState (cfg : Config) : SimState where
  mode1Temp := cfg.desiredTemp
  mode1HeaterOn := false
  mode1EnergyUsed := 0
  mode1HeaterOnCount := 0
  mode1Data := []
  mode2Temp := cfg.desiredTemp
  mode2HeaterOn := false
  mode2EnergyUsed := 0
  mode2HeaterOnCount := 0
  mode2Data := []

/-- Mode 1 heater decision (lines 142-146): bang-bang controller with
hysteresis around `desiredTemp`; in the dead zone the previous state is
kept. -/
noncomputable def mode1Decide (cfg : Config) (temp : ℝ) (prev : Bool) : Bool :=
  if temp < cfg.desiredTemp - cfg.thermostatHysteresis / 2 then true
  else if temp > cfg.desiredTemp + cfg.thermostatHysteresis / 2 then false
  else prev

/-- Mode 2 heater decision (lines 150-166): heating disabled whenever
`hour >= 22 || hour < 8`, otherwise the same controller as mode 1 with
target `desiredTemp`. -/
noncomputable def mode2Decide (cfg : Config) (hour : ℕ) (temp : ℝ)
    (prev : Bool) : Bool :=
  if 22 ≤ hour ∨ hour < 8 then false
  else if temp < cfg.desiredTemp - cfg.thermostatHysteresis / 2 then true
  else if temp > cfg.desiredTemp + cfg.thermostatHysteresis / 2 then false
  else prev

/-- The derivative closures `f1` / `f2` (lines 172-173 and 186-187):
`(heaterOutputValue - (T - effectiveOutsideTemp) * heatLossCoefficient) /
houseHeatCapacity`. -/
noncomputable def fDeriv (cfg : Config) (heaterOutputValue effOut T : ℝ) : ℝ :=
  (heaterOutputValue - (T - effOut) * heatLossCoefficient cfg) /
    cfg.houseHeatCapacity

/-- One RK4 update (lines 175-181 and 189-195): the forcing (heater output
value and outside temperature) is fixed across the four stage
evaluations. -/
noncomputable def rk4Next (cfg : Config) (heaterOutputValue effOut T : ℝ) : ℝ :=
  let k1 := fDeriv cfg heaterOutputValue effOut T
  let k2 := fDeriv cfg heaterOutputValue effOut (T + k1 * dt / 2)
  let k3 := fDeriv cfg heaterOutputValue effOut (T + k2 * dt / 2)
  let k4 := fDeriv cfg heaterOutputValue effOut (T + k3 * dt)
  T + (dt / 6) * (k1 + 2 * k2 + 2 * k3 + k4)

/-- One iteration of the simulation loop (lines 123-227) at index `step`:
sample time and outside temperature, decide both heaters, integrate both
temperatures by RK4, accumulate energy and duty counts, and append one
record per mode. -/
noncomputable def stepSim (cfg : Config) (step : ℕ) (s : SimState) : SimState :=
  let timeInHours : ℝ := (step : ℝ) / (STEPS_PER_HOUR : ℝ)
  let hour : ℕ := step / STEPS_PER_HOUR
  let effOut := effectiveOutsideTemp cfg timeInHours
  let m1On := mode1Decide cfg s.mode1Temp s.mode1HeaterOn
  let m2On := mode2Decide cfg hour s.mode2Temp s.mode2HeaterOn
  let m1NewTemp := rk4Next cfg (if m1On then cfg.heaterOutput else 0) effOut s.mode1Temp
  let m2NewTemp := rk4Next cfg (if m2On then cfg.heaterOutput else 0) effOut s.mode2Temp
  let m1NewEnergy :=
    if m1On then s.mode1EnergyUsed + cfg.heaterOutput / (STEPS_PER_HOUR : ℝ)
    else s.mode1EnergyUsed
  let m2NewEnergy :=
    if m2On then s.mode2EnergyUsed + cfg.heaterOutput / (STEPS_PER_HOUR : ℝ)
    else s.mode2EnergyUsed
  let m1NewCount := if m1On then s.mode1HeaterOnCount + 1 else s.mode1HeaterOnCount
  let m2NewCount := if m2On then s.mode2HeaterOnCount + 1 else s.mode2HeaterOnCount
  { mode1Temp := m1NewTemp
    mode1HeaterOn := m1On
    mode1EnergyUsed := m1NewEnergy
    mode1HeaterOnCount := m1NewCount
    mode1Data := s.mode1Data ++
      [{ hour := hour, temperature := round2 m1NewTemp, outsideTemp := round2 effOut,
         heaterOn := m1On, energyUsed := m1NewEnergy }]
    mode2Temp := m2NewTemp
    mode2HeaterOn := m2On
    mode2EnergyUsed := m2NewEnergy
    mode2HeaterOnCount := m2NewCount
    mode2Data := s.mode2Data ++
      [{ hour := hour, temperature := round2 m2NewTemp, outsideTemp := round2 effOut,
         heaterOn := m2On, energyUsed := m2NewEnergy }] }

/-- The loop state reached after `n` iterations of `stepSim`, starting from
`initState`. -/
noncomputable def stateAt (cfg : Config) : ℕ → SimState
  | 0 => initState cfg
  | n + 1 => stepSim cfg n (stateAt cfg n)

/-- The state at the end of `runSimulation`: after all `TOTAL_STEPS`
iterations. -/
noncomputable def finalState (cfg : Config) : SimState :=
  stateAt cfg TOTAL_STEPS

/-- The savings percentage (line 236):
`(mode1EnergyUsed - mode2EnergyUsed) / mode1EnergyUsed * 100`.  The source
performs this division unguarded; `none` models the undefined (`NaN` /
`±Infinity`) IEEE result produced when `mode1EnergyUsed` is `0`. -/
noncomputable def savings (cfg : Config) : Option ℝ :=
  let e1 := (finalState cfg).mode1EnergyUsed
  let e2 := (finalState cfg).mode2EnergyUsed
  if e1 = 0 then none else some ((e1 - e2) / e1 * 100)

/-- The mode-1 record appended during iteration `i`: its payload is read off
the state after that iteration, plus the sampled hour and outside
temperature of the iteration itself. -/
noncomputable def mode1RecordAt (cfg : Config) (i : ℕ) : SimRec where
  hour := i / STEPS_PER_HOUR
  temperature := round2 ((stateAt cfg (i + 1)).mode1Temp)
  outsideTemp := round2 (effectiveOutsideTemp cfg ((i : ℝ) / (STEPS_PER_HOUR : ℝ)))
  heaterOn := (stateAt cfg (i + 1)).mode1HeaterOn
  energyUsed := (stateAt cfg (i + 1)).mode1EnergyUsed

/-- The mode-2 record appended during iteration `i`. -/
noncomputable def mode2RecordAt (cfg : Config) (i : ℕ) : SimRec where
  hour := i / STEPS_PER_HOUR
  temperature := round2 ((stateAt cfg (i + 1)).mode2Temp)
  outsideTemp := round2 (effectiveOutsideTemp cfg ((i : ℝ) / (STEPS_PER_HOUR : ℝ)))
  heaterOn := (stateAt cfg (i + 1)).mode2HeaterOn
  energyUsed := (stateAt cfg (i + 1)).mode2EnergyUsed

lemma stateAt_succ (cfg : Config) (n : ℕ) :
    stateAt cfg (n + 1) = stepSim cfg n (stateAt cfg n) := rfl

lemma stepSim_mode1HeaterOn (cfg : Config) (n : ℕ) (s : SimState) :
    (stepSim cfg n s).mode1HeaterOn = mode1Decide cfg s.mode1Temp s.mode1HeaterOn := rfl

lemma stepSim_mode2HeaterOn (cfg : Config) (n : ℕ) (s : SimState) :
    (stepSim cfg n s).mode2HeaterOn =
      mode2Decide cfg (n / STEPS_PER_HOUR) s.mode2Temp s.mode2HeaterOn := rfl

lemma stepSim_mode1Temp (cfg : Config) (n : ℕ) (s : SimState) :
    (stepSim cfg n s).mode1Temp =
      rk4Next cfg
        (if mode1Decide cfg s.mode1Temp s.mode1HeaterOn then cfg.heaterOutput else 0)
        (effectiveOutsideTemp cfg ((n : ℝ) / (STEPS_PER_HOUR : ℝ))) s.mode1Temp := rfl

lemma stepSim_mode2Temp (cfg : Config) (n : ℕ) (s : SimState) :
    (stepSim cfg n s).mode2Temp =
      rk4Next cfg
        (if mode2Decide cfg (n / STEPS_PER_HOUR) s.mode2Temp s.mode2HeaterOn then
          cfg.heaterOutput else 0)
        (effectiveOutsideTemp cfg ((n : ℝ) / (STEPS_PER_HOUR : ℝ))) s.mode2Temp := rfl

lemma stepSim_mode1EnergyUsed (cfg : Config) (n : ℕ) (s : SimState) :
    (stepSim cfg n s).mode1EnergyUsed =
      if mode1Decide cfg s.mode1Temp s.mode1HeaterOn then
        s.mode1EnergyUsed + cfg.heaterOutput / (STEPS_PER_HOUR : ℝ)
      else s.mode1EnergyUsed := rfl

lemma stepSim_mode2EnergyUsed (cfg : Config) (n : ℕ) (s : SimState) :
    (stepSim cfg n s).mode2EnergyUsed =
      if mode2Decide cfg (n / STEPS_PER_HOUR) s.mode2Temp s.mode2HeaterOn then
        s.mode2EnergyUsed + cfg.heaterOutput / (STEPS_PER_HOUR : ℝ)
      else s.mode2EnergyUsed := rfl

/-- The mode-1 data array after `n` iterations is exactly the first `n`
per-iteration records, in order. -/
lemma mode1Data_stateAt (cfg : Config) :
    ∀ n : ℕ, (stateAt cfg n).mode1Data = (List.range n).map (mode1RecordAt cfg) := by
  intro n
  induction n with
  | zero => rfl
  | succ n ih =>
      rw [stateAt_succ]
      show (stateAt cfg n).mode1Data ++ [_] = _
      rw [ih, List.range_succ, List.map_append]
      rfl

/-- The mode-2 data array after `n` iterations is exactly the first `n`
per-iteration records, in order. -/
lemma mode2Data_stateAt (cfg : Config) :
    ∀ n : ℕ, (stateAt cfg n).mode2Data = (List.range n).map (mode2RecordAt cfg) := by
  intro n
  induction n with
  | zero => rfl
  | succ n ih =>
      rw [stateAt_succ]
      show (stateAt cfg n).mode2Data ++ [_] = _
      rw [ih, List.range_succ, List.map_append]
      rfl

/-- With zero diurnal amplitude the sinusoid contributes nothing. -/
lemma effectiveOutsideTemp_of_diurnal_zero (cfg : Config)
    (h : cfg.diurnalVariation = 0) (t : ℝ) :
    effectiveOutsideTemp cfg t = cfg.outsideTemp := by
  simp [effectiveOutsideTemp, h]

lemma dt_pos : 0 < dt := by norm_num [dt, SECONDS_PER_STEP]

/-- The RK4 stability polynomial `R(-z) = 1 - z + z^2/2 - z^3/6 + z^4/24`
of one cooling step: with zero heater output a step maps `T` to
`effOut + R(-z) * (T - effOut)` where `z = heatLossCoefficient * dt /
houseHeatCapacity`. -/
noncomputable def rk4Gain (z : ℝ) : ℝ :=
  1 - z + z ^ 2 / 2 - z ^ 3 / 6 + z ^ 4 / 24

lemma rk4Next_zero_heater (cfg : Config) (effOut T : ℝ)
    (hC : cfg.houseHeatCapacity ≠ 0) :
    rk4Next cfg 0 effOut T =
      effOut +
        rk4Gain (heatLossCoefficient cfg * dt / cfg.houseHeatCapacity) *
          (T - effOut) := by
  unfold rk4Next fDeriv rk4Gain
  field_simp
  ring

lemma rk4Gain_nonneg {z : ℝ} (h0 : 0 ≤ z) (h1 : z ≤ 1) : 0 ≤ rk4Gain z := by
  unfold rk4Gain
  nlinarith [sq_nonneg z, sq_nonneg (z - 1), pow_nonneg h0 3, pow_nonneg h0 4,
    mul_nonneg (mul_nonneg h0 h0) (sub_nonneg.2 h1)]

lemma rk4Gain_le_one {z : ℝ} (h0 : 0 ≤ z) (h1 : z ≤ 1) : rk4Gain z ≤ 1 := by
  unfold rk4Gain
  nlinarith [sq_nonneg z, pow_nonneg h0 3, pow_nonneg h0 4,
    mul_nonneg h0 (sub_nonneg.2 h1),
    mul_nonneg (mul_nonneg (mul_nonneg h0 h0) h0) (sub_nonneg.2 h1)]

lemma rk4_z_mem (cfg : Config) (hC : 0 < cfg.houseHeatCapacity)
    (hh : 0 ≤ heatLossCoefficient cfg)
    (hz : heatLossCoefficient cfg * dt ≤ cfg.houseHeatCapacity) :
    0 ≤ heatLossCoefficient cfg * dt / cfg.houseHeatCapacity ∧
      heatLossCoefficient cfg * dt / cfg.houseHeatCapacity ≤ 1 := by
  constructor
  · exact div_nonneg (mul_nonneg hh dt_pos.le) hC.le
  · exact (div_le_one hC).2 hz

/-- With zero heater output and a stable step size, a step started at or
above the outside temperature stays between the outside temperature and the
previous temperature. -/
lemma rk4Next_cool_between (cfg : Config) (effOut T : ℝ)
    (hC : 0 < cfg.houseHeatCapacity) (hh : 0 ≤ heatLossCoefficient cfg)
    (hz : heatLossCoefficient cfg * dt ≤ cfg.houseHeatCapacity)
    (hT : effOut ≤ T) :
    effOut ≤ rk4Next cfg 0 effOut T ∧ rk4Next cfg 0 effOut T ≤ T := by
  obtain ⟨hz0, hz1⟩ := rk4_z_mem cfg hC hh hz
  rw [rk4Next_zero_heater cfg effOut T hC.ne']
  have hg0 := rk4Gain_nonneg hz0 hz1
  have hg1 := rk4Gain_le_one hz0 hz1
  constructor
  · nlinarith [mul_nonneg hg0 (sub_nonneg.2 hT)]
  · nlinarith [mul_le_of_le_one_left (sub_nonneg.2 hT) hg1]

/-- With zero heater output and a stable step size, a step started at or
below the outside temperature stays between the previous temperature and the
outside temperature. -/
lemma rk4Next_warm_between (cfg : Config) (effOut T : ℝ)
    (hC : 0 < cfg.houseHeatCapacity) (hh : 0 ≤ heatLossCoefficient cfg)
    (hz : heatLossCoefficient cfg * dt ≤ cfg.houseHeatCapacity)
    (hT : T ≤ effOut) :
    T ≤ rk4Next cfg 0 effOut T ∧ rk4Next cfg 0 effOut T ≤ effOut := by
  obtain ⟨hz0, hz1⟩ := rk4_z_mem cfg hC hh hz
  rw [rk4Next_zero_heater cfg effOut T hC.ne']
  have hg0 := rk4Gain_nonneg hz0 hz1
  have hg1 := rk4Gain_le_one hz0 hz1
  constructor
  · nlinarith [mul_nonneg hg0 (sub_nonneg.2 hT),
      mul_le_of_le_one_left (sub_nonneg.2 hT) hg1]
  · nlinarith [mul_nonneg hg0 (sub_nonneg.2 hT)]

/-- Controller as worded in the specification, rules in priority order:
suppression forces OFF; below `target - band/2` turns ON; above
`target + band/2` turns OFF; otherwise the previous state is held. -/
noncomputable def specController (suppressed : Bool) (currentTemp target band : ℝ)
    (prev : Bool) : Bool :=
  if suppressed then false
  else if currentTemp < target - band / 2 then true
  else if currentTemp > target + band / 2 then false
  else prev

/-- The classical 4-stage Runge-Kutta step as worded in the specification:
`k1 = f(T)`, `k2 = f(T + k1*dt/2)`, `k3 = f(T + k2*dt/2)`, `k4 = f(T + k3*dt)`,
`T_next = T + (dt/6)*(k1 + 2*k2 + 2*k3 + k4)`. -/
noncomputable def specRK4 (f : ℝ → ℝ) (T dtv : ℝ) : ℝ :=
  let k1 := f T
  let k2 := f (T + k1 * dtv / 2)
  let k3 := f (T + k2 * dtv / 2)
  let k4 := f (T + k3 * dtv)
  T + (dtv / 6) * (k1 + 2 * k2 + 2 * k3 + k4)

lemma mode1Decide_eq_specController (cfg : Config) (temp : ℝ) (prev : Bool) :
    mode1Decide cfg temp prev =
      specController false temp cfg.desiredTemp cfg.thermostatHysteresis prev := by
  simp [mode1Decide, specController]

lemma mode2Decide_eq_specController (cfg : Config) (hour : ℕ) (temp : ℝ)
    (prev : Bool) :
    mode2Decide cfg hour temp prev =
      specController (decide (22 ≤ hour ∨ hour < 8)) temp cfg.desiredTemp
        cfg.thermostatHysteresis prev := by
  by_cases h : 22 ≤ hour ∨ hour < 8 <;>
    simp [mode2Decide, specController, h]

/-- C3: at every step of either mode, the heater decision entering the state
follows the specification's hysteresis rules in priority order, with mode 1
never suppressed and mode 2 suppressed exactly when the integer hour of day
lies in the night window. -/
theorem heater_decision_matches_spec_controller (cfg : Config) (n : ℕ) :
    (stateAt cfg (n + 1)).mode1HeaterOn =
      specController false (stateAt cfg n).mode1Temp cfg.desiredTemp
        cfg.thermostatHysteresis (stateAt cfg n).mode1HeaterOn ∧
    (stateAt cfg (n + 1)).mode2HeaterOn =
      specController (decide (22 ≤ n / STEPS_PER_HOUR ∨ n / STEPS_PER_HOUR < 8))
        (stateAt cfg n).mode2Temp cfg.desiredTemp
        cfg.thermostatHysteresis (stateAt cfg n).mode2HeaterOn := by
  rw [stateAt_succ, stepSim_mode1HeaterOn, stepSim_mode2HeaterOn]
  exact ⟨mode1Decide_eq_specController cfg _ _,
    mode2Decide_eq_specController cfg _ _ _⟩

lemma specRK4_fDeriv (cfg : Config) (H effOut T : ℝ) :
    specRK4 (fDeriv cfg H effOut) T dt = rk4Next cfg H effOut T := rfl

/-- C4: each step advances each mode's indoor temperature by exactly the
classical RK4 formula for the derivative
`f(T) = (heaterOutputIfOn - (T - Tout) * heatLossCoefficient) /
houseHeatCapacity` with `dt = 10 / 3600` hours, the heater-on decision of
this step and the outside temperature of this step held fixed across the
four stage evaluations. -/
theorem temp_update_is_rk4 (cfg : Config) (n : ℕ) :
    (stateAt cfg (n + 1)).mode1Temp =
      specRK4
        (fun T =>
          ((if (stateAt cfg (n + 1)).mode1HeaterOn then cfg.heaterOutput else 0) -
              (T - effectiveOutsideTemp cfg ((n : ℝ) / (STEPS_PER_HOUR : ℝ))) *
                (1000 / cfg.insulation)) /
            cfg.houseHeatCapacity)
        ((stateAt cfg n).mode1Temp) ((10 : ℝ) / 3600) ∧
    (stateAt cfg (n + 1)).mode2Temp =
      specRK4
        (fun T =>
          ((if (stateAt cfg (n + 1)).mode2HeaterOn then cfg.heaterOutput else 0) -
              (T - effectiveOutsideTemp cfg ((n : ℝ) / (STEPS_PER_HOUR : ℝ))) *
                (1000 / cfg.insulation)) /
            cfg.houseHeatCapacity)
        ((stateAt cfg n).mode2Temp) ((10 : ℝ) / 3600) := by
  have hdt : dt = (10 : ℝ) / 3600 := by norm_num [dt, SECONDS_PER_STEP]
  constructor
  · conv_lhs => rw [stateAt_succ, stepSim_mode1Temp]
    rw [show (stateAt cfg (n + 1)).mode1HeaterOn =
        mode1Decide cfg (stateAt cfg n).mode1Temp (stateAt cfg n).mode1HeaterOn from rfl]
    rw [← specRK4_fDeriv, hdt]
    rfl
  · conv_lhs => rw [stateAt_succ, stepSim_mode2Temp]
    rw [show (stateAt cfg (n + 1)).mode2HeaterOn =
        mode2Decide cfg (n / STEPS_PER_HOUR) (stateAt cfg n).mode2Temp
          (stateAt cfg n).mode2HeaterOn from rfl]
    rw [← specRK4_fDeriv, hdt]
    rfl

/-- C8: both mode runs are driven by the identical outdoor-temperature
trace: at every index, the recorded outside temperatures of the two modes
agree. -/
theorem modes_share_outside_trace (cfg : Config) (i : ℕ) :
    ((finalState cfg).mode1Data.get? i).map SimRec.outsideTemp =
      ((finalState cfg).mode2Data.get? i).map SimRec.outsideTemp := by
  unfold finalState
  rw [mode1Data_stateAt, mode2Data_stateAt]
  by_cases h : i < TOTAL_STEPS
  · rw [List.get?_eq_get (by simpa using h), List.get?_eq_get (by simpa using h)]
    simp [mode1RecordAt, mode2RecordAt]
  · rw [List.get?_eq_none.2 (by simpa using Nat.le_of_not_lt h),
      List.get?_eq_none.2 (by simpa using Nat.le_of_not_lt h)]

/-- C2 (amended): the engine performs no configuration validation; every
configuration, including invalid ones, yields a completed simulation with a
full-length record sequence for each mode. -/
theorem simulation_total_records_length (cfg : Config) :
    (finalState cfg).mode1Data.length = TOTAL_STEPS ∧
      (finalState cfg).mode2Data.length = TOTAL_STEPS := by
  unfold finalState
  rw [mode1Data_stateAt, mode2Data_stateAt]
  simp

/-- C2 (counterexample): a configuration with `insulationFactor ≤ 0` is not
rejected: the simulation still runs all steps and produces full results, so
no `ConfigurationError` is surfaced and the run does not fail. -/
theorem no_config_validation_cx :
    (Config.mk 30 68 (-1) 4000 60000 15 2).insulation ≤ 0 ∧
      (finalState (Config.mk 30 68 (-1) 4000 60000 15 2)).mode1Data.length =
        TOTAL_STEPS ∧
      (finalState (Config.mk 30 68 (-1) 4000 60000 15 2)).mode2Data.length =
        TOTAL_STEPS := by
  refine ⟨by norm_num, ?_, ?_⟩
  · exact (simulation_total_records_length _).1
  · exact (simulation_total_records_length _).2

lemma mode1Data_get? (cfg : Config) {i : ℕ} {rec : SimRec}
    (h : (finalState cfg).mode1Data.get? i = some rec) :
    i < TOTAL_STEPS ∧ rec = mode1RecordAt cfg i := by
  rw [finalState, mode1Data_stateAt, List.get?_map] at h
  by_cases hi : i < TOTAL_STEPS
  · rw [List.get?_range hi] at h
    simp only [Option.map_some', Option.some.injEq] at h
    exact ⟨hi, h.symm⟩
  · rw [List.get?_eq_none.2 (by simpa using Nat.le_of_not_lt hi)] at h
    simp at h

lemma mode2Data_get? (cfg : Config) {i : ℕ} {rec : SimRec}
    (h : (finalState cfg).mode2Data.get? i = some rec) :
    i < TOTAL_STEPS ∧ rec = mode2RecordAt cfg i := by
  rw [finalState, mode2Data_stateAt, List.get?_map] at h
  by_cases hi : i < TOTAL_STEPS
  · rw [List.get?_range hi] at h
    simp only [Option.map_some', Option.some.injEq] at h
    exact ⟨hi, h.symm⟩
  · rw [List.get?_eq_none.2 (by simpa using Nat.le_of_not_lt hi)] at h
    simp at h

/-- C10: both mode runs start from the same initial state — indoor
temperature `desiredTempF` with the heater off — and with a positive
hysteresis band the starting temperature lies strictly inside the
controller's dead zone, so the first step's decision holds the heater
off in both modes. -/
theorem runs_start_equal_in_dead_zone (cfg : Config) :
    (initState cfg).mode1Temp = cfg.desiredTemp ∧
    (initState cfg).mode2Temp = cfg.desiredTemp ∧
    (initState cfg).mode1HeaterOn = false ∧
    (initState cfg).mode2HeaterOn = false ∧
    (0 < cfg.thermostatHysteresis →
      cfg.desiredTemp - cfg.thermostatHysteresis / 2 < (initState cfg).mode1Temp ∧
      (initState cfg).mode1Temp < cfg.desiredTemp + cfg.thermostatHysteresis / 2 ∧
      (stateAt cfg 1).mode1HeaterOn = false ∧
      (stateAt cfg 1).mode2HeaterOn = false) := by
  refine ⟨rfl, rfl, rfl, rfl, fun hband => ⟨by simp [initState]; linarith,
    by simp [initState]; linarith, ?_, ?_⟩⟩
  · rw [show (1 : ℕ) = 0 + 1 from rfl, stateAt_succ, stepSim_mode1HeaterOn]
    show mode1Decide cfg cfg.desiredTemp false = false
    unfold mode1Decide
    have h1 : ¬(cfg.desiredTemp < cfg.desiredTemp - cfg.thermostatHysteresis / 2) := by
      linarith
    simp [h1]
  · rw [show (1 : ℕ) = 0 + 1 from rfl, stateAt_succ, stepSim_mode2HeaterOn]
    show mode2Decide cfg (0 / STEPS_PER_HOUR) cfg.desiredTemp false = false
    unfold mode2Decide
    simp

/-- C10 witness: at a concrete configuration with positive band, both modes
start at the desired temperature with the heater off and the first decision
keeps it off. -/
theorem runs_start_equal_in_dead_zone_witness :
    0 < (Config.mk 30 68 5 4000 60000 15 2).thermostatHysteresis ∧
      (initState (Config.mk 30 68 5 4000 60000 15 2)).mode1Temp =
        (Config.mk 30 68 5 4000 60000 15 2).desiredTemp ∧
      (stateAt (Config.mk 30 68 5 4000 60000 15 2) 1).mode1HeaterOn = false ∧
      (stateAt (Config.mk 30 68 5 4000 60000 15 2) 1).mode2HeaterOn = false := by
  have h := runs_start_equal_in_dead_zone (Config.mk 30 68 5 4000 60000 15 2)
  have hb : (0 : ℝ) < (Config.mk 30 68 5 4000 60000 15 2).thermostatHysteresis := by
    norm_num
  exact ⟨hb, h.1, (h.2.2.2.2 hb).2.2.1, (h.2.2.2.2 hb).2.2.2⟩

/-- C5: in the night-setback mode, every record whose fractional hour of day
falls in the night window `[22,24) ∪ [0,8)` has the heater off, for every
configuration and regardless of the indoor temperature. -/
theorem night_window_forces_heater_off (cfg : Config) (i : ℕ) (rec : SimRec)
    (hrec : (finalState cfg).mode2Data.get? i = some rec)
    (hw : 22 ≤ (i : ℝ) / (STEPS_PER_HOUR : ℝ) ∨
      (i : ℝ) / (STEPS_PER_HOUR : ℝ) < 8) :
    rec.heaterOn = false := by
  obtain ⟨hi, hreq⟩ := mode2Data_get? cfg hrec
  have hsteps : (STEPS_PER_HOUR : ℝ) = 360 := by
    norm_num [STEPS_PER_HOUR, SECONDS_PER_STEP]
  have hs360 : STEPS_PER_HOUR = 360 := by
    norm_num [STEPS_PER_HOUR, SECONDS_PER_STEP]
  have hnat : 22 ≤ i / STEPS_PER_HOUR ∨ i / STEPS_PER_HOUR < 8 := by
    rcases hw with hw | hw
    · left
      rw [hsteps, le_div_iff₀ (by norm_num : (0:ℝ) < 360)] at hw
      have hge : 7920 ≤ i := by exact_mod_cast (by linarith : (7920 : ℝ) ≤ (i : ℝ))
      rw [hs360]
      omega
    · right
      rw [hsteps, div_lt_iff₀ (by norm_num : (0:ℝ) < 360)] at hw
      have hlt : i < 2880 := by exact_mod_cast (by linarith : (i : ℝ) < 2880)
      rw [hs360]
      omega
  rw [hreq]
  show (stateAt cfg (i + 1)).mode2HeaterOn = false
  rw [stateAt_succ, stepSim_mode2HeaterOn]
  unfold mode2Decide
  simp [hnat]

/-- C5 witness: at a concrete configuration, the record of step 0 (hour 0,
inside the night window) exists and has the heater off. -/
theorem night_window_forces_heater_off_witness :
    (finalState (Config.mk 30 68 5 4000 60000 15 2)).mode2Data.get? 0 =
        some (mode2RecordAt (Config.mk 30 68 5 4000 60000 15 2) 0) ∧
      (mode2RecordAt (Config.mk 30 68 5 4000 60000 15 2) 0).heaterOn = false := by
  have hrec : (finalState (Config.mk 30 68 5 4000 60000 15 2)).mode2Data.get? 0 =
      some (mode2RecordAt (Config.mk 30 68 5 4000 60000 15 2) 0) := by
    rw [finalState, mode2Data_stateAt, List.get?_map, List.get?_range
      (by norm_num [TOTAL_STEPS, HOURS_SIMULATED, STEPS_PER_HOUR, SECONDS_PER_STEP])]
    rfl
  refine ⟨hrec, night_window_forces_heater_off _ 0 _ hrec (Or.inr ?_)⟩
  norm_num [STEPS_PER_HOUR, SECONDS_PER_STEP]

lemma mode1EnergyUsed_step_le (cfg : Config) (hP : 0 ≤ cfg.heaterOutput) (n : ℕ) :
    (stateAt cfg n).mode1EnergyUsed ≤ (stateAt cfg (n + 1)).mode1EnergyUsed := by
  rw [stateAt_succ, stepSim_mode1EnergyUsed]
  split
  · have : (0 : ℝ) ≤ cfg.heaterOutput / (STEPS_PER_HOUR : ℝ) :=
      div_nonneg hP (Nat.cast_nonneg _)
    linarith
  · exact le_rfl

lemma mode2EnergyUsed_step_le (cfg : Config) (hP : 0 ≤ cfg.heaterOutput) (n : ℕ) :
    (stateAt cfg n).mode2EnergyUsed ≤ (stateAt cfg (n + 1)).mode2EnergyUsed := by
  rw [stateAt_succ, stepSim_mode2EnergyUsed]
  split
  · have : (0 : ℝ) ≤ cfg.heaterOutput / (STEPS_PER_HOUR : ℝ) :=
      div_nonneg hP (Nat.cast_nonneg _)
    linarith
  · exact le_rfl

lemma total_steps_eq : TOTAL_STEPS = 8639 + 1 := by
  norm_num [TOTAL_STEPS, HOURS_SIMULATED, STEPS_PER_HOUR, SECONDS_PER_STEP]

/-- C6: for every configuration with nonnegative heater output (every valid
configuration delivers nonnegative heat while ON), the cumulative energy
values along each mode's ordered record sequence are non-decreasing. -/
theorem cumulative_energy_monotone (cfg : Config) (hP : 0 ≤ cfg.heaterOutput) :
    ((finalState cfg).mode1Data.map SimRec.energyUsed).Chain' (fun a b => a ≤ b) ∧
      ((finalState cfg).mode2Data.map SimRec.energyUsed).Chain' (fun a b => a ≤ b) := by
  constructor
  · rw [finalState, mode1Data_stateAt, List.map_map, total_steps_eq,
      List.chain'_map, List.chain'_range_succ]
    intro m _
    exact mode1EnergyUsed_step_le cfg hP (m + 1)
  · rw [finalState, mode2Data_stateAt, List.map_map, total_steps_eq,
      List.chain'_map, List.chain'_range_succ]
    intro m _
    exact mode2EnergyUsed_step_le cfg hP (m + 1)

/-- C6 witness: the monotonicity holds at a concrete configuration with
nonnegative heater output. -/
theorem cumulative_energy_monotone_witness :
    0 ≤ (Config.mk 30 68 5 4000 60000 15 2).heaterOutput ∧
      ((finalState (Config.mk 30 68 5 4000 60000 15 2)).mode1Data.map
        SimRec.energyUsed).Chain' (fun a b => a ≤ b) ∧
      ((finalState (Config.mk 30 68 5 4000 60000 15 2)).mode2Data.map
        SimRec.energyUsed).Chain' (fun a b => a ≤ b) := by
  have hP : (0 : ℝ) ≤ (Config.mk 30 68 5 4000 60000 15 2).heaterOutput := by norm_num
  exact ⟨hP, cumulative_energy_monotone _ hP⟩

/-- C7: the outside temperature recorded at step `i` is (the rounding to a
hundredth of) `Tbase + (amplitude/2) * sin(2*pi*(hourOfDay - 9)/24)` at the
continuous fractional hour `i / STEPS_PER_HOUR`; with zero diurnal amplitude
it is the constant base temperature at every step. -/
theorem outside_temp_formula (cfg : Config) (i : ℕ) (rec : SimRec)
    (hrec : (finalState cfg).mode1Data.get? i = some rec) :
    rec.outsideTemp =
      round2 (cfg.outsideTemp + (cfg.diurnalVariation / 2) *
        Real.sin (2 * Real.pi * ((i : ℝ) / (STEPS_PER_HOUR : ℝ) - 9) / 24)) ∧
      (cfg.diurnalVariation = 0 → rec.outsideTemp = round2 cfg.outsideTemp) := by
  obtain ⟨hi, hreq⟩ := mode1Data_get? cfg hrec
  subst hreq
  constructor
  · rfl
  · intro h0
    show round2 (effectiveOutsideTemp cfg _) = _
    rw [effectiveOutsideTemp_of_diurnal_zero cfg h0]

/-- C7 witness: at a concrete configuration with zero diurnal amplitude, the
record of step 0 exists and its recorded outside temperature is the rounded
base temperature. -/
theorem outside_temp_formula_witness :
    (finalState (Config.mk 30 68 5 4000 60000 0 2)).mode1Data.get? 0 =
        some (mode1RecordAt (Config.mk 30 68 5 4000 60000 0 2) 0) ∧
      (mode1RecordAt (Config.mk 30 68 5 4000 60000 0 2) 0).outsideTemp =
        round2 (Config.mk 30 68 5 4000 60000 0 2).outsideTemp := by
  have hrec : (finalState (Config.mk 30 68 5 4000 60000 0 2)).mode1Data.get? 0 =
      some (mode1RecordAt (Config.mk 30 68 5 4000 60000 0 2) 0) := by
    rw [finalState, mode1Data_stateAt, List.get?_map, List.get?_range
      (by norm_num [TOTAL_STEPS, HOURS_SIMULATED, STEPS_PER_HOUR, SECONDS_PER_STEP])]
    rfl
  exact ⟨hrec, (outside_temp_formula _ 0 _ hrec).2 rfl⟩

/-- With zero diurnal amplitude, an outside temperature at or above the
setpoint, nonnegative band, and a stable step size, the mode-1 heater never
turns on: the indoor temperature stays between the setpoint and the outside
temperature and no energy is ever used. -/
lemma mode1_never_on_when_warm (cfg : Config)
    (hd : cfg.diurnalVariation = 0)
    (hwarm : cfg.desiredTemp ≤ cfg.outsideTemp)
    (hC : 0 < cfg.houseHeatCapacity)
    (hh : 0 ≤ heatLossCoefficient cfg)
    (hz : heatLossCoefficient cfg * dt ≤ cfg.houseHeatCapacity)
    (hband : 0 ≤ cfg.thermostatHysteresis) :
    ∀ n : ℕ, (stateAt cfg n).mode1HeaterOn = false ∧
      cfg.desiredTemp ≤ (stateAt cfg n).mode1Temp ∧
      (stateAt cfg n).mode1Temp ≤ cfg.outsideTemp ∧
      (stateAt cfg n).mode1EnergyUsed = 0 := by
  intro n
  induction n with
  | zero => exact ⟨rfl, le_rfl, hwarm, rfl⟩
  | succ n ih =>
      obtain ⟨hOn, hlo, hhi, hE⟩ := ih
      have hdec : mode1Decide cfg (stateAt cfg n).mode1Temp
          (stateAt cfg n).mode1HeaterOn = false := by
        rw [hOn]
        unfold mode1Decide
        split_ifs with h1 h2
        · exfalso; linarith
        · rfl
        · rfl
      have heff : effectiveOutsideTemp cfg ((n : ℝ) / (STEPS_PER_HOUR : ℝ)) =
          cfg.outsideTemp := effectiveOutsideTemp_of_diurnal_zero cfg hd _
      have htemp : (stateAt cfg (n + 1)).mode1Temp =
          rk4Next cfg 0 cfg.outsideTemp (stateAt cfg n).mode1Temp := by
        rw [stateAt_succ, stepSim_mode1Temp, hdec, heff]
        simp
      have hbt := rk4Next_warm_between cfg cfg.outsideTemp
        (stateAt cfg n).mode1Temp hC hh hz hhi
      refine ⟨?_, ?_, ?_, ?_⟩
      · rw [stateAt_succ, stepSim_mode1HeaterOn, hdec]
      · rw [htemp]; linarith [hbt.1]
      · rw [htemp]; exact hbt.2
      · rw [stateAt_succ, stepSim_mode1EnergyUsed, hdec]
        simpa using hE

/-- C1 (counterexample): a configuration whose mode-1 (constant) run never
turns the heater on — outside temperature above the setpoint — yields
`mode1EnergyUsed = 0`, and the savings computation, which divides by
`mode1EnergyUsed` unguarded, produces no defined number (the IEEE division
yields `NaN`), not a fallback value. -/
theorem savings_undefined_at_zero_energy_cx :
    (finalState (Config.mk 60 50 5 4000 20000 0 2)).mode1EnergyUsed = 0 ∧
      savings (Config.mk 60 50 5 4000 20000 0 2) = none := by
  have h := (mode1_never_on_when_warm (Config.mk 60 50 5 4000 20000 0 2) rfl
    (by norm_num) (by norm_num) (by norm_num [heatLossCoefficient])
    (by norm_num [heatLossCoefficient, dt, SECONDS_PER_STEP])
    (by norm_num) TOTAL_STEPS).2.2.2
  rw [show (stateAt (Config.mk 60 50 5 4000 20000 0 2) TOTAL_STEPS) =
    finalState (Config.mk 60 50 5 4000 20000 0 2) from rfl] at h
  exact ⟨h, by simp [savings, h]⟩

/-- C1 (amended): the savings computation is an unguarded division by the
constant-mode total energy: the percentage is a defined number exactly when
`mode1EnergyUsed` is nonzero, and undefined (IEEE `NaN`) when it is zero. -/
theorem savings_defined_iff_energy_nonzero (cfg : Config) :
    savings cfg = none ↔ (finalState cfg).mode1EnergyUsed = 0 := by
  by_cases h : (finalState cfg).mode1EnergyUsed = 0
  · simp [savings, h]
  · simp [savings, h]

lemma round2_ge (x : ℝ) : x - 1 / 200 ≤ round2 x := by
  have h := abs_sub_round (100 * x)
  rw [abs_le] at h
  unfold round2
  have h2 := h.2
  linarith

/-- Rounding to a hundredth cannot push a value above a bound that is itself
a multiple of a hundredth. -/
lemma round2_le_of_le {x d : ℝ} (k : ℤ) (hdk : d * 100 = (k : ℝ)) (h : x ≤ d) :
    round2 x ≤ d := by
  have hr : round (100 * x) ≤ k := by
    rw [round_eq]
    calc ⌊100 * x + 1 / 2⌋ ≤ ⌊(1 : ℝ) / 2 + (k : ℝ)⌋ := by
          apply Int.floor_le_floor
          linarith
      _ = ⌊(1 : ℝ) / 2⌋ + k := Int.floor_add_int _ _
      _ = k := by norm_num
  have hr' : ((round (100 * x) : ℤ) : ℝ) ≤ (k : ℝ) := Int.cast_le.2 hr
  unfold round2
  linarith

/-- With zero heater output, zero diurnal amplitude, outside temperature at
or below the setpoint and a stable step size, both modes' indoor
temperatures stay between the outside temperature and the starting
temperature at every step. -/
lemma cooling_invariant (cfg : Config)
    (hP : cfg.heaterOutput = 0)
    (hd : cfg.diurnalVariation = 0)
    (hcool : cfg.outsideTemp ≤ cfg.desiredTemp)
    (hC : 0 < cfg.houseHeatCapacity)
    (hh : 0 ≤ heatLossCoefficient cfg)
    (hz : heatLossCoefficient cfg * dt ≤ cfg.houseHeatCapacity) :
    ∀ n : ℕ,
      (cfg.outsideTemp ≤ (stateAt cfg n).mode1Temp ∧
        (stateAt cfg n).mode1Temp ≤ cfg.desiredTemp) ∧
      (cfg.outsideTemp ≤ (stateAt cfg n).mode2Temp ∧
        (stateAt cfg n).mode2Temp ≤ cfg.desiredTemp) := by
  intro n
  induction n with
  | zero => exact ⟨⟨hcool, le_rfl⟩, ⟨hcool, le_rfl⟩⟩
  | succ n ih =>
      obtain ⟨⟨h1lo, h1hi⟩, ⟨h2lo, h2hi⟩⟩ := ih
      have heff : effectiveOutsideTemp cfg ((n : ℝ) / (STEPS_PER_HOUR : ℝ)) =
          cfg.outsideTemp := effectiveOutsideTemp_of_diurnal_zero cfg hd _
      have htemp1 : (stateAt cfg (n + 1)).mode1Temp =
          rk4Next cfg 0 cfg.outsideTemp (stateAt cfg n).mode1Temp := by
        rw [stateAt_succ, stepSim_mode1Temp, heff, hP, ite_self]
      have htemp2 : (stateAt cfg (n + 1)).mode2Temp =
          rk4Next cfg 0 cfg.outsideTemp (stateAt cfg n).mode2Temp := by
        rw [stateAt_succ, stepSim_mode2Temp, heff, hP, ite_self]
      have hb1 := rk4Next_cool_between cfg cfg.outsideTemp
        (stateAt cfg n).mode1Temp hC hh hz h1lo
      have hb2 := rk4Next_cool_between cfg cfg.outsideTemp
        (stateAt cfg n).mode2Temp hC hh hz h2lo
      exact ⟨⟨by rw [htemp1]; exact hb1.1, by rw [htemp1]; linarith [hb1.2]⟩,
        ⟨by rw [htemp2]; exact hb2.1, by rw [htemp2]; linarith [hb2.2]⟩⟩

/-- C9 (amended): with `heaterOutput = 0`, `outsideBaseTempF < desiredTempF`,
zero diurnal amplitude, a step size stable for the RK4 scheme
(`heatLossCoefficient * dt ≤ houseHeatCapacity`), positive heat capacity and
nonnegative heat-loss coefficient, and a setpoint that is a whole number of
hundredths, the indoor temperature never rises above its starting value: at
every step both modes' temperatures, and every recorded `insideTempF`, are
at most the initial indoor temperature `desiredTempF`. -/
theorem cooling_never_exceeds_start (cfg : Config)
    (hP : cfg.heaterOutput = 0)
    (hcool : cfg.outsideTemp < cfg.desiredTemp)
    (hd : cfg.diurnalVariation = 0)
    (hC : 0 < cfg.houseHeatCapacity)
    (hh : 0 ≤ heatLossCoefficient cfg)
    (hz : heatLossCoefficient cfg * dt ≤ cfg.houseHeatCapacity)
    (hgrid : ∃ k : ℤ, cfg.desiredTemp * 100 = (k : ℝ)) :
    (∀ n : ℕ, (stateAt cfg n).mode1Temp ≤ cfg.desiredTemp ∧
      (stateAt cfg n).mode2Temp ≤ cfg.desiredTemp) ∧
    (∀ rec ∈ (finalState cfg).mode1Data, rec.temperature ≤ cfg.desiredTemp) ∧
    (∀ rec ∈ (finalState cfg).mode2Data, rec.temperature ≤ cfg.desiredTemp) := by
  obtain ⟨k, hk⟩ := hgrid
  have hinv := cooling_invariant cfg hP hd hcool.le hC hh hz
  refine ⟨fun n => ⟨(hinv n).1.2, (hinv n).2.2⟩, ?_, ?_⟩
  · intro rec hrec
    rw [finalState, mode1Data_stateAt] at hrec
    obtain ⟨i, _, hi⟩ := List.mem_map.1 hrec
    rw [← hi]
    exact round2_le_of_le k hk (hinv (i + 1)).1.2
  · intro rec hrec
    rw [finalState, mode2Data_stateAt] at hrec
    obtain ⟨i, _, hi⟩ := List.mem_map.1 hrec
    rw [← hi]
    exact round2_le_of_le k hk (hinv (i + 1)).2.2

/-- C9 witness: at a concrete stable cooling configuration, step 0's
mode-1 record exists and its recorded temperature does not exceed the
starting temperature. -/
theorem cooling_never_exceeds_start_witness :
    (Config.mk 30 68 5 4000 0 0 2).heaterOutput = 0 ∧
      (Config.mk 30 68 5 4000 0 0 2).outsideTemp <
        (Config.mk 30 68 5 4000 0 0 2).desiredTemp ∧
      mode1RecordAt (Config.mk 30 68 5 4000 0 0 2) 0 ∈
        (finalState (Config.mk 30 68 5 4000 0 0 2)).mode1Data ∧
      (mode1RecordAt (Config.mk 30 68 5 4000 0 0 2) 0).temperature ≤
        (Config.mk 30 68 5 4000 0 0 2).desiredTemp := by
  have hmem : mode1RecordAt (Config.mk 30 68 5 4000 0 0 2) 0 ∈
      (finalState (Config.mk 30 68 5 4000 0 0 2)).mode1Data := by
    rw [finalState, mode1Data_stateAt]
    exact List.mem_map.2 ⟨0, List.mem_range.2
      (by norm_num [TOTAL_STEPS, HOURS_SIMULATED, STEPS_PER_HOUR, SECONDS_PER_STEP]), rfl⟩
  refine ⟨rfl, by norm_num, hmem, ?_⟩
  exact (cooling_never_exceeds_start _ rfl (by norm_num) rfl (by norm_num)
    (by norm_num [heatLossCoefficient])
    (by norm_num [heatLossCoefficient, dt, SECONDS_PER_STEP])
    ⟨6800, by norm_num⟩).2.1 _ hmem

/-- C9 (counterexample): the claim as stated fails on the code.  At the
configuration `outside = 30 < desired = 68`, `heaterOutput = 0`,
`insulation = 1`, `houseHeatCapacity = 1/2` (valid per the engine: all
checked quantities positive), the RK4 step is unstable
(`heatLossCoefficient * dt / houseHeatCapacity = 50/9 > 1`): the very first
recorded indoor temperature already exceeds the starting value instead of
falling. -/
theorem cooling_counterexample_temp_rises :
    (Config.mk 30 68 1 (1/2) 0 0 2).heaterOutput = 0 ∧
      (Config.mk 30 68 1 (1/2) 0 0 2).outsideTemp <
        (Config.mk 30 68 1 (1/2) 0 0 2).desiredTemp ∧
      (initState (Config.mk 30 68 1 (1/2) 0 0 2)).mode1Temp =
        (Config.mk 30 68 1 (1/2) 0 0 2).desiredTemp ∧
      mode1RecordAt (Config.mk 30 68 1 (1/2) 0 0 2) 0 ∈
        (finalState (Config.mk 30 68 1 (1/2) 0 0 2)).mode1Data ∧
      (Config.mk 30 68 1 (1/2) 0 0 2).desiredTemp <
        (mode1RecordAt (Config.mk 30 68 1 (1/2) 0 0 2) 0).temperature := by
  have hmem : mode1RecordAt (Config.mk 30 68 1 (1/2) 0 0 2) 0 ∈
      (finalState (Config.mk 30 68 1 (1/2) 0 0 2)).mode1Data := by
    rw [finalState, mode1Data_stateAt]
    exact List.mem_map.2 ⟨0, List.mem_range.2
      (by norm_num [TOTAL_STEPS, HOURS_SIMULATED, STEPS_PER_HOUR, SECONDS_PER_STEP]), rfl⟩
  have h1 : (stateAt (Config.mk 30 68 1 (1/2) 0 0 2) 1).mode1Temp =
      rk4Next (Config.mk 30 68 1 (1/2) 0 0 2) 0 30 68 := by
    rw [show (1 : ℕ) = 0 + 1 from rfl, stateAt_succ, stepSim_mode1Temp]
    rw [effectiveOutsideTemp_of_diurnal_zero _ rfl]
    norm_num [stateAt, initState, ite_self]
  have hval : (800 : ℝ) ≤ rk4Next (Config.mk 30 68 1 (1/2) 0 0 2) 0 30 68 := by
    norm_num [rk4Next, fDeriv, heatLossCoefficient, dt, SECONDS_PER_STEP]
  have hrec : (mode1RecordAt (Config.mk 30 68 1 (1/2) 0 0 2) 0).temperature =
      round2 ((stateAt (Config.mk 30 68 1 (1/2) 0 0 2) 1).mode1Temp) := rfl
  refine ⟨rfl, by norm_num, rfl, hmem, ?_⟩
  rw [hrec, h1]
  have hge := round2_ge (rk4Next (Config.mk 30 68 1 (1/2) 0 0 2) 0 30 68)
  show (68 : ℝ) < _
  linarith
